import Mathlib

/-!
Verification of `wmi-rs` `src/datetime.rs` (WMIDateTime parsing and formatting)

This file shallowly embeds the `WMIDateTime` module of the `wmi-rs` repository.
The module parses CIM/WMI datetime strings of the shape
`YYYYMMDDHHMMSS.ffffff{+|-}UUU` and reformats them as RFC3339-style strings.

The source selects one of two backends at build time:
* the default backend uses the `chrono` crate (`FixedOffset::east`,
  `datetime_from_str` with format `"%Y%m%d%H%M%S.%f"`, `to_rfc3339`);
* the `time-instead-of-chrono` backend uses the `time` crate
  (`UtcOffset::from_whole_seconds`, `Parsed::parse_items` with format
  `"[month][day][hour][minute][second].[subsecond digits:6]"`,
  `set_subsecond`, `set_year`, `TryInto<PrimitiveDateTime>`).

Both backends are embedded (`Chrono.from_str` and `TimeBackend.from_str`).
Rust strings are modelled as `List Char` (one `Char` per byte; the module's
wire format is ASCII).  Calls into the external `chrono`/`time` crates are
modelled from those crates' documented behaviour.  Rust `i32` arithmetic that
can overflow is modelled with two's-complement wrapping (release semantics).
A Rust `panic!`/`unwrap` abort is modelled by the `Outcome.panic` constructor.
-/

/-- Three-valued outcome of running a fallible Rust function: a success, a
typed error returned to the caller, or a process abort (`panic`). -/
inductive Outcome (ε α : Type) where
  | ok (a : α)
  | err (e : ε)
  | panic
deriving DecidableEq, Repr

/-! ## Digit and number helpers (ASCII decimal) -/

/-- Numeric value of an ASCII digit character. -/
def digitVal (c : Char) : Nat := c.toNat - 48

/-- Decimal value of a digit string, most significant digit first
(the caller guarantees all characters are digits). -/
def digitsToNat (cs : List Char) : Nat :=
  cs.foldl (fun a c => a * 10 + digitVal c) 0

/-- Decimal value of a character list, or `none` when the list is empty or
contains a non-digit.  Mirrors the digits loop of Rust's `u32`/`i32` `FromStr`. -/
def digitsToNatOpt (cs : List Char) : Option Nat :=
  if cs ≠ [] ∧ cs.all Char.isDigit then some (digitsToNat cs) else none

/-- `Rust: <i32 as FromStr>::from_str`.  An optional single leading `+`/`-`
sign, then one or more decimal digits; the value must fit in `i32`. -/
def parseI32 (cs : List Char) : Option Int :=
  let core : Int → List Char → Option Int := fun sign ds =>
    match digitsToNatOpt ds with
    | none => none
    | some n =>
      let v : Int := sign * (n : Int)
      if v < -2147483648 ∨ 2147483647 < v then none else some v
  match cs with
  | '+' :: r => core 1 r
  | '-' :: r => core (-1) r
  | _ => core 1 cs

/-- Two's-complement wrap of an integer into the `i32` range (Rust release-mode
semantics of `i32` arithmetic overflow). -/
def wrap32 (n : Int) : Int :=
  (n + 2147483648) % 4294967296 - 2147483648

/-- The exactly-`w`-digit zero-padded decimal rendering of `n` (low digits of
`n` when `n` has more than `w` digits; callers establish `n < 10 ^ w`). -/
def fixedDigits : Nat → Nat → List Char
  | 0, _ => []
  | w + 1, n => fixedDigits w (n / 10) ++ [Nat.digitChar (n % 10)]

/-- Unpadded decimal rendering of `n` (most significant digit first), with
structural fuel; `numStr` supplies enough fuel for any `n`. -/
def numStrAux : Nat → Nat → List Char
  | 0, _ => []
  | f + 1, n => if n < 10 then [Nat.digitChar n] else numStrAux f (n / 10) ++ [Nat.digitChar (n % 10)]

/-- Unpadded decimal rendering of `n`, as Rust's `Display` for unsigned integers. -/
def numStr (n : Nat) : List Char := numStrAux (n + 1) n

/-- Rust's `{:0w}` zero-padded formatting of an unsigned integer: exactly `w`
digits when the value fits, the full decimal rendering otherwise. -/
def padNum (w n : Nat) : List Char :=
  if n < 10 ^ w then fixedDigits w n else numStr n

/-! ## Error model

The `WMIError` enum lives in the repository's `src/error.rs`, which is not part
of the provided sources; only the variants constructed or converted into by
`src/datetime.rs` are modelled, following the specification's error taxonomy. -/

/-- Error kinds of `chrono::format::ParseError` (no variant carries a field
name; the offending component is not identified). -/
inductive ChronoErrKind where
  | invalid
  | outOfRange
  | tooShort
  | tooLong
deriving DecidableEq, Repr

/-- Errors of the `time` crate reachable from this module: parse errors naming
the offending component, a literal mismatch, and component-range errors. -/
inductive TimeParseErr where
  | invalidComponent (name : String)
  | invalidLiteral
  | componentRange (name : String)
deriving DecidableEq, Repr

/-- Modelled from the spec: the repository's `WMIError` variants reachable from
`src/datetime.rs` (the enum itself is defined in `src/error.rs`, which is not
among the provided sources).
* `convertDatetimeError` — the explicit too-short error;
* `parseIntError` — `From<std::num::ParseIntError>`, produced by `?` on
  `.parse::<i32>()` for both the offset tail and (time backend) the year;
* `parseDatetimeChrono` — `From<chrono::ParseError>` (chrono backend);
* `parseDatetimeTime` — `From<time::Error>` (time backend);
* `formatInvalidComponent` — the two explicit
  `time::error::Format::InvalidComponent` defensive branches. -/
inductive WMIError where
  | convertDatetimeError (s : List Char)
  | parseIntError
  | parseDatetimeChrono (k : ChronoErrKind)
  | parseDatetimeTime (e : TimeParseErr)
  | formatInvalidComponent (name : String)
deriving DecidableEq, Repr

/-- The specification's error taxonomy (spec section 7). -/
inductive SpecErrorKind where
  | MalformedInput
  | InvalidOffset
  | InvalidDateTimeComponent (field : String)
  | TypeMismatch
  | InternalFormattingFailure
deriving DecidableEq, Repr

/-- Modelled from the spec: the section-7 kind of each `WMIError` variant.
Chrono parse errors carry no component name, so they map to
`InvalidDateTimeComponent ""` (no field identified). -/
def specKind : WMIError → SpecErrorKind
  | .convertDatetimeError _ => .MalformedInput
  | .parseIntError => .InvalidOffset
  | .parseDatetimeChrono _ => .InvalidDateTimeComponent ""
  | .parseDatetimeTime (.componentRange "offset") => .InvalidOffset
  | .parseDatetimeTime (.componentRange f) => .InvalidDateTimeComponent f
  | .parseDatetimeTime (.invalidComponent f) => .InvalidDateTimeComponent f
  | .parseDatetimeTime .invalidLiteral => .InvalidDateTimeComponent "literal"
  | .formatInvalidComponent _ => .InternalFormattingFailure

/-! ## Shared calendar arithmetic -/

/-- Proleptic Gregorian leap-year rule, shared by `chrono` and `time`. -/
def isLeapYear (y : Int) : Bool :=
  y % 4 = 0 ∧ (y % 100 ≠ 0 ∨ y % 400 = 0)

/-- Number of days of month `m` (1-based) of year `y`. -/
def daysInMonth (y : Int) (m : Nat) : Nat :=
  if m = 2 then (if isLeapYear y then 29 else 28)
  else if m = 4 ∨ m = 6 ∨ m = 9 ∨ m = 11 then 30
  else 31

/-! ## Chrono backend: parsing

`tz.datetime_from_str(datetime_part, "%Y%m%d%H%M%S.%f")` parses with chrono's
strftime items: numeric items consume greedily at least one and at most
width-many digits (`%Y` consumes unboundedly many digits after an explicit
sign), `.` is a literal, and `%f` is `Numeric::Nanosecond` — the digits are
the nanosecond count itself, not a fraction.  Afterwards the parsed fields are
resolved into a `NaiveDateTime` with calendar validation and the fixed offset
is attached. -/

namespace Chrono

/-- Greedy digit scan: consume up to `m` further digits, accumulating onto `acc`. -/
def takeDigitsAux : Nat → List Char → Nat → Nat × List Char
  | 0, cs, acc => (acc, cs)
  | _ + 1, [], acc => (acc, [])
  | m + 1, c :: cs, acc =>
    if c.isDigit then takeDigitsAux m cs (acc * 10 + digitVal c) else (acc, c :: cs)

/-- `chrono::format::scan::number(s, 1, w)`: one to `w` digits, greedy. -/
def scanNum (w : Nat) (cs : List Char) : Except ChronoErrKind (Nat × List Char) :=
  match cs with
  | [] => .error .tooShort
  | c :: r => if c.isDigit then .ok (takeDigitsAux (w - 1) r (digitVal c)) else .error .invalid

/-- Greedy unbounded digit scan (all contiguous digits), accumulating onto `acc`. -/
def takeAllDigits : List Char → Nat → Nat × List Char
  | [], acc => (acc, [])
  | c :: cs, acc =>
    if c.isDigit then takeAllDigits cs (acc * 10 + digitVal c) else (acc, c :: cs)

/-- `chrono::format::scan::number(s, 1, usize::MAX)` with the `i64` overflow
check chrono performs while accumulating. -/
def scanNumAll (cs : List Char) : Except ChronoErrKind (Nat × List Char) :=
  match cs with
  | [] => .error .tooShort
  | c :: r =>
    if c.isDigit then
      let (n, rest) := takeAllDigits r (digitVal c)
      if 9223372036854775807 < n then .error .outOfRange else .ok (n, rest)
    else .error .invalid

/-- The `%Y` item: without a sign, one to four digits; with an explicit
`+`/`-` sign, unboundedly many digits (chrono respects the width only when no
sign is present). -/
def scanYear (cs : List Char) : Except ChronoErrKind (Int × List Char) :=
  match cs with
  | '-' :: r =>
    match scanNumAll r with
    | .error e => .error e
    | .ok (n, rest) => .ok (-(n : Int), rest)
  | '+' :: r =>
    match scanNumAll r with
    | .error e => .error e
    | .ok (n, rest) => .ok ((n : Int), rest)
  | _ =>
    match scanNum 4 cs with
    | .error e => .error e
    | .ok (n, rest) => .ok ((n : Int), rest)

/-- The raw fields collected by chrono's `Parsed` for `"%Y%m%d%H%M%S.%f"`. -/
structure Raw where
  year : Int
  month : Nat
  day : Nat
  hour : Nat
  minute : Nat
  second : Nat
  nanos : Nat
deriving DecidableEq, Repr

/-- Parse the 21-character datetime part with chrono items
`%Y %m %d %H %M %S literal-dot %f`, requiring full consumption
(`chrono` returns `TOO_LONG` on trailing input).  `Parsed::set_year` rejects
values outside `i32`. -/
def parseItems (cs : List Char) : Except ChronoErrKind Raw :=
  match scanYear cs with
  | .error e => .error e
  | .ok (y, cs) =>
    if y < -2147483648 ∨ 2147483647 < y then .error .outOfRange else
    match scanNum 2 cs with
    | .error e => .error e
    | .ok (mo, cs) =>
      match scanNum 2 cs with
      | .error e => .error e
      | .ok (d, cs) =>
        match scanNum 2 cs with
        | .error e => .error e
        | .ok (h, cs) =>
          match scanNum 2 cs with
          | .error e => .error e
          | .ok (mi, cs) =>
            match scanNum 2 cs with
            | .error e => .error e
            | .ok (sec, cs) =>
              match cs with
              | '.' :: cs =>
                match scanNum 9 cs with
                | .error e => .error e
                | .ok (ns, cs) =>
                  match cs with
                  | [] => .ok ⟨y, mo, d, h, mi, sec, ns⟩
                  | _ => .error .tooLong
              | _ => .error .invalid

/-- The instant held by the chrono backend's `WMIDateTime`: a calendar
date-time (nanoseconds carry a leap second as `second = 59`,
`nanos ≥ 10 ^ 9`, as in chrono) plus a fixed offset in seconds. -/
structure DateTime where
  year : Int
  month : Nat
  day : Nat
  hour : Nat
  minute : Nat
  second : Nat
  nanos : Nat
  offsetSecs : Int
deriving DecidableEq, Repr

/-- `Parsed::to_naive_datetime_with_offset` field validation: month and
calendar day, hour `< 24`, minute `< 60`, second `≤ 60` where `60` denotes a
leap second stored chrono-style as `59` seconds plus `10 ^ 9` nanoseconds. -/
def resolve (offsetSecs : Int) (r : Raw) : Except ChronoErrKind DateTime :=
  if ¬ (1 ≤ r.month ∧ r.month ≤ 12) then .error .outOfRange
  else if ¬ (1 ≤ r.day ∧ r.day ≤ daysInMonth r.year r.month) then .error .outOfRange
  else if ¬ r.hour ≤ 23 then .error .outOfRange
  else if ¬ r.minute ≤ 59 then .error .outOfRange
  else if ¬ r.second ≤ 60 then .error .outOfRange
  else
    .ok ⟨r.year, r.month, r.day, r.hour, r.minute,
      (if r.second = 60 then 59 else r.second),
      r.nanos + (if r.second = 60 then 1000000000 else 0), offsetSecs⟩

/-- `<WMIDateTime as FromStr>::from_str`, chrono (default-feature) backend:
length guard, `split_at(21)`, `tz_part.parse::<i32>()?`,
`FixedOffset::east(tz_min * 60)` — which `panic!`s when the offset in seconds
lies outside the open interval `(-86400, 86400)` — then
`tz.datetime_from_str(datetime_part, "%Y%m%d%H%M%S.%f")?`. -/
def from_str (s : List Char) : Outcome WMIError DateTime :=
  if s.length < 21 then .err (.convertDatetimeError s)
  else
    let datetimePart := s.take 21
    let tzPart := s.drop 21
    match parseI32 tzPart with
    | none => .err .parseIntError
    | some tzMin =>
      let secs := wrap32 (tzMin * 60)
      if secs ≤ -86400 ∨ 86400 ≤ secs then .panic
      else
        match parseItems datetimePart with
        | .error e => .err (.parseDatetimeChrono e)
        | .ok r =>
          match resolve secs r with
          | .error e => .err (.parseDatetimeChrono e)
          | .ok dt => .ok dt

/-! ## Chrono backend: formatting (`DateTime::to_rfc3339`)

`to_rfc3339` formats `%Y-%m-%dT%H:%M:%S`, then the fractional second with
`SecondsFormat::AutoSi` (no digits when the sub-second nanoseconds are zero,
3 digits for a whole number of milliseconds, 6 for a whole number of
microseconds, 9 otherwise), then the offset as sign, two-digit hours, colon,
two-digit minutes — never the `Z` shorthand.  A leap second (stored as
`nanos ≥ 10 ^ 9`) prints as second `60` with the fraction `nanos mod 10 ^ 9`. -/

/-- `%Y` formatting: zero-padded to four digits, sign-prefixed when negative. -/
def yearStr (y : Int) : List Char :=
  if y < 0 then '-' :: padNum 4 y.natAbs else padNum 4 y.natAbs

/-- `SecondsFormat::AutoSi` fractional-second rendering (leading dot included;
empty when `n = 0`). -/
def fracAutoSi (n : Nat) : List Char :=
  if n = 0 then []
  else if n % 1000000 = 0 then '.' :: padNum 3 (n / 1000000)
  else if n % 1000 = 0 then '.' :: padNum 6 (n / 1000)
  else '.' :: padNum 9 n

/-- The sign character of the formatted numeric offset. -/
def offSign (secs : Int) : Char := if secs < 0 then '-' else '+'

/-- The `±HH:MM` rendering of a fixed offset in seconds. -/
def offsetColon (secs : Int) : List Char :=
  offSign secs :: (padNum 2 (secs.natAbs / 3600) ++ ':' :: padNum 2 (secs.natAbs % 3600 / 60))

/-- The `YYYY-MM-DDTHH:MM:SS` core of the RFC3339 rendering (second shown as
`60` for a leap second). -/
def dateCore (dt : DateTime) : List Char :=
  yearStr dt.year ++ '-' :: padNum 2 dt.month ++ '-' :: padNum 2 dt.day
    ++ 'T' :: padNum 2 dt.hour ++ ':' :: padNum 2 dt.minute
    ++ ':' :: padNum 2 (dt.second + dt.nanos / 1000000000)

/-- `DateTime::to_rfc3339` (chrono): always succeeds, explicit signed numeric
offset, `AutoSi` fractional seconds. -/
def to_rfc3339 (dt : DateTime) : List Char :=
  dateCore dt ++ fracAutoSi (dt.nanos % 1000000000) ++ offsetColon dt.offsetSecs

/-- The serialize adapter composed with parsing, as in the module's tests:
parse a WMI string, then format the resulting instant. -/
def parseThenFormat (s : List Char) : Outcome WMIError (List Char) :=
  match from_str s with
  | .ok dt => .ok (to_rfc3339 dt)
  | .err e => .err e
  | .panic => .panic

end Chrono

/-! ## Time backend (`time-instead-of-chrono` feature): parsing

`from_str` parses `s[21..]` as offset minutes, builds the offset with
`UtcOffset::from_whole_seconds` (valid range `±93599` seconds, i.e.
`±25:59:59`), runs `Parsed::parse_items` on `s[4..21]` with the fixed-width
format `[month][day][hour][minute][second].[subsecond digits:6]`, replaces the
parsed subseconds by `subsecond / 1000` (`set_subsecond`, valid below `10 ^ 9`
nanoseconds), parses `s[..4]` as a signed `i32` year (`set_year`, valid range
`±9999` without the `large-dates` feature), and converts the collected fields
into a `PrimitiveDateTime` (calendar-day validation) with the offset attached.
The `[subsecond digits:6]` component is a fraction of a second: six parsed
digits `N` denote `N * 1000` nanoseconds. -/

namespace TimeBackend

/-- The fields collected by `time::parsing::Parsed` for this format. -/
structure Fields where
  month : Nat
  day : Nat
  hour : Nat
  minute : Nat
  second : Nat
  nanos : Nat
deriving DecidableEq, Repr

/-- Parse one fixed-width two-digit component: exactly two digit characters
whose value lies in `[lo, hi]`, otherwise `InvalidComponent name`. -/
def parseFixed2 (name : String) (lo hi : Nat) (cs : List Char) :
    Except TimeParseErr (Nat × List Char) :=
  match cs with
  | c1 :: c2 :: rest =>
    if c1.isDigit ∧ c2.isDigit then
      let v := digitVal c1 * 10 + digitVal c2
      if lo ≤ v ∧ v ≤ hi then .ok (v, rest) else .error (.invalidComponent name)
    else .error (.invalidComponent name)
  | _ => .error (.invalidComponent name)

/-- Match the literal dot of the format description. -/
def expectDot (cs : List Char) : Except TimeParseErr (List Char) :=
  match cs with
  | '.' :: rest => .ok rest
  | _ => .error .invalidLiteral

/-- `[subsecond digits:6]`: exactly six digit characters; the parsed value `N`
denotes `N * 1000` nanoseconds. -/
def parseSubsec6 (cs : List Char) : Except TimeParseErr (Nat × List Char) :=
  if (cs.take 6).length = 6 ∧ (cs.take 6).all Char.isDigit then
    .ok (digitsToNat (cs.take 6) * 1000, cs.drop 6)
  else .error (.invalidComponent "subsecond")

/-- `Parsed::parse_items` over the 17-byte slice `s[4..21]` with the format
`[month][day][hour][minute][second].[subsecond digits:6]` (component ranges:
month 1–12, day ≥ 1 — the calendar upper bound is checked at the
`PrimitiveDateTime` conversion —, hour ≤ 23, minute ≤ 59, second ≤ 59).
Leftover input is returned, not an error. -/
def parseItems (cs : List Char) : Except TimeParseErr Fields :=
  match parseFixed2 "month" 1 12 cs with
  | .error e => .error e
  | .ok (mo, cs) =>
    match parseFixed2 "day" 1 99 cs with
    | .error e => .error e
    | .ok (d, cs) =>
      match parseFixed2 "hour" 0 23 cs with
      | .error e => .error e
      | .ok (h, cs) =>
        match parseFixed2 "minute" 0 59 cs with
        | .error e => .error e
        | .ok (mi, cs) =>
          match parseFixed2 "second" 0 59 cs with
          | .error e => .error e
          | .ok (sec, cs) =>
            match expectDot cs with
            | .error e => .error e
            | .ok cs =>
              match parseSubsec6 cs with
              | .error e => .error e
              | .ok (ns, _) => .ok ⟨mo, d, h, mi, sec, ns⟩

/-- The instant held by the time backend's `WMIDateTime`
(`time::OffsetDateTime`): calendar fields, nanoseconds, offset in seconds. -/
structure DateTime where
  year : Int
  month : Nat
  day : Nat
  hour : Nat
  minute : Nat
  second : Nat
  nanos : Nat
  offsetSecs : Int
deriving DecidableEq, Repr

/-- `<WMIDateTime as FromStr>::from_str`, `time-instead-of-chrono` backend. -/
def from_str (s : List Char) : Outcome WMIError DateTime :=
  if s.length < 21 then .err (.convertDatetimeError s)
  else
    match parseI32 (s.drop 21) with
    | none => .err .parseIntError
    | some minutesOffset =>
      let secs := wrap32 (minutesOffset * 60)
      if secs < -93599 ∨ 93599 < secs then
        .err (.parseDatetimeTime (.componentRange "offset"))
      else
        match parseItems ((s.drop 4).take 17) with
        | .error e => .err (.parseDatetimeTime e)
        | .ok f =>
          -- set_subsecond(parser.subsecond().unwrap_or(0) / 1000)
          let sub := f.nanos / 1000
          if 999999999 < sub then .err (.formatInvalidComponent "subsecond")
          else
            match parseI32 (s.take 4) with
            | none => .err .parseIntError
            | some y =>
              if y < -9999 ∨ 9999 < y then .err (.formatInvalidComponent "year")
              else
                if f.day > daysInMonth y f.month then
                  .err (.parseDatetimeTime (.componentRange "day"))
                else
                  .ok ⟨y, f.month, f.day, f.hour, f.minute, f.second, sub, secs⟩

end TimeBackend

/-! ## Decode adapter (`impl Deserialize for WMIDateTime`)

`deserialize` calls `deserializer.deserialize_str(DateTimeVisitor)`.  For a
self-describing deserializer, a non-string scalar triggers the visitor's
default methods, which produce an `invalid_type` error whose expected
description is the visitor's `expecting` text, `"a timestamp in WMI format"`.
A string value reaches `visit_str`, which delegates to `FromStr` and wraps any
parser error with `E::custom(format!("{}", err))`. -/

/-- Shapes a self-describing deserializer can hand to the visitor. -/
inductive SerdeValue where
  | vstr (s : List Char)
  | vnum (n : Int)
  | vbool (b : Bool)
  | vseq
  | vmap
deriving DecidableEq, Repr

/-- The deserializer's description of a non-string shape (used in the
`invalid_type` error). -/
def typeDesc : SerdeValue → String
  | .vstr _ => "string"
  | .vnum _ => "integer"
  | .vbool _ => "boolean"
  | .vseq => "sequence"
  | .vmap => "map"

/-- Whether the incoming value is a string scalar. -/
def SerdeValue.isStr : SerdeValue → Bool
  | .vstr _ => true
  | _ => false

/-- Decode-side errors of the external serialization framework. -/
inductive DeError where
  | invalidType (unexpected expected : String)
  | custom (msg : List Char)
deriving DecidableEq, Repr

/-- Modelled from the spec: the `Display` rendering of `WMIError`
(`src/error.rs` is not among the provided sources); `visit_str` forwards this
text into `E::custom`.  The exact wording is immaterial to the claims, which
only require the decode error to carry the parser's message. -/
def displayWMIError : WMIError → List Char
  | .convertDatetimeError s => "failed to convert datetime: ".data ++ s
  | .parseIntError => "invalid digit found in string".data
  | .parseDatetimeChrono _ => "datetime parse error".data
  | .parseDatetimeTime _ => "datetime parse error".data
  | .formatInvalidComponent n => ("invalid component: " ++ n).data

/-- `<WMIDateTime as Deserialize>::deserialize` against a self-describing
deserializer holding value `v` (chrono backend parser). -/
def deserializeWMIDateTime (v : SerdeValue) : Outcome DeError Chrono.DateTime :=
  match v with
  | .vstr s =>
    match Chrono.from_str s with
    | .ok dt => .ok dt
    | .err e => .err (.custom (displayWMIError e))
    | .panic => .panic
  | v => .err (.invalidType (typeDesc v) "a timestamp in WMI format")

/-! ## Verification -/

deriving instance DecidableEq for Except

/-! Digit arithmetic lemmas -/

theorem digitVal_le_nine {c : Char} (h : c.isDigit = true) : digitVal c ≤ 9 := by
  simp only [Char.isDigit, Bool.and_eq_true, decide_eq_true_eq] at h
  obtain ⟨h1, h2⟩ := h
  simp [UInt32.le_def, BitVec.le_def, UInt32.toNat] at h1 h2
  simp [digitVal, Char.toNat, UInt32.toNat]
  omega

theorem digitsToNat_from (cs : List Char) (acc : Nat) :
    cs.foldl (fun a c => a * 10 + digitVal c) acc
      = acc * 10 ^ cs.length + digitsToNat cs := by
  induction cs generalizing acc with
  | nil => simp [digitsToNat]
  | cons c cs ih =>
    simp only [List.foldl_cons, List.length_cons, digitsToNat]
    rw [ih (acc * 10 + digitVal c), ih (0 * 10 + digitVal c)]
    ring

theorem digitsToNat_cons (c : Char) (cs : List Char) :
    digitsToNat (c :: cs) = digitVal c * 10 ^ cs.length + digitsToNat cs := by
  simpa [digitsToNat] using digitsToNat_from cs (digitVal c)

theorem digitsToNat_lt (cs : List Char) (h : cs.all Char.isDigit = true) :
    digitsToNat cs < 10 ^ cs.length := by
  induction cs with
  | nil => simp [digitsToNat]
  | cons c cs ih =>
    simp only [List.all_cons, Bool.and_eq_true] at h
    have h9 := digitVal_le_nine h.1
    have := ih h.2
    rw [digitsToNat_cons]
    have : digitVal c * 10 ^ cs.length ≤ 9 * 10 ^ cs.length :=
      Nat.mul_le_mul_right _ h9
    simp only [List.length_cons, pow_succ]
    omega

theorem digitsToNat_append_singleton (l : List Char) (c : Char) :
    digitsToNat (l ++ [c]) = digitsToNat l * 10 + digitVal c := by
  simp [digitsToNat, List.foldl_append]

theorem digitVal_digitChar {d : Nat} (h : d < 10) :
    digitVal (Nat.digitChar d) = d := by
  interval_cases d <;> rfl

theorem isDigit_digitChar {d : Nat} (h : d < 10) :
    (Nat.digitChar d).isDigit = true := by
  interval_cases d <;> rfl

theorem fixedDigits_length (w n : Nat) : (fixedDigits w n).length = w := by
  induction w generalizing n with
  | zero => rfl
  | succ w ih => simp [fixedDigits, ih]

theorem fixedDigits_all_digits (w n : Nat) :
    (fixedDigits w n).all Char.isDigit = true := by
  induction w generalizing n with
  | zero => rfl
  | succ w ih =>
    simp [fixedDigits, ih, isDigit_digitChar (Nat.mod_lt n (by omega))]

theorem digitsToNat_fixedDigits (w n : Nat) :
    digitsToNat (fixedDigits w n) = n % 10 ^ w := by
  induction w generalizing n with
  | zero => simp [fixedDigits, digitsToNat, Nat.mod_one]
  | succ w ih =>
    rw [fixedDigits, digitsToNat_append_singleton, ih,
      digitVal_digitChar (Nat.mod_lt n (by omega))]
    rw [pow_succ, Nat.mul_comm (10 ^ w) 10, Nat.mod_mul]
    ring

theorem digitsToNat_fixedDigits_of_lt {w n : Nat} (h : n < 10 ^ w) :
    digitsToNat (fixedDigits w n) = n := by
  rw [digitsToNat_fixedDigits, Nat.mod_eq_of_lt h]

theorem padNum_eq_fixedDigits {w n : Nat} (h : n < 10 ^ w) :
    padNum w n = fixedDigits w n := by
  simp [padNum, h]

theorem padNum_length {w n : Nat} (h : n < 10 ^ w) : (padNum w n).length = w := by
  rw [padNum_eq_fixedDigits h, fixedDigits_length]

/-! Chrono greedy-scan lemmas -/

theorem takeDigitsAux_digits (ds : List Char) (m : Nat) (rest : List Char) (acc : Nat)
    (hds : ds.all Char.isDigit = true) (hm : ds.length ≤ m)
    (hstop : ∀ c cs, rest = c :: cs → c.isDigit = false) :
    Chrono.takeDigitsAux m (ds ++ rest) acc
      = (acc * 10 ^ ds.length + digitsToNat ds, rest) := by
  induction ds generalizing m acc with
  | nil =>
    simp only [List.nil_append, List.length_nil, pow_zero, Nat.mul_one]
    cases m with
    | zero => simp [Chrono.takeDigitsAux, digitsToNat]
    | succ m =>
      cases rest with
      | nil => simp [Chrono.takeDigitsAux, digitsToNat]
      | cons c cs =>
        simp [Chrono.takeDigitsAux, hstop c cs rfl, digitsToNat]
  | cons d ds ih =>
    simp only [List.all_cons, Bool.and_eq_true] at hds
    cases m with
    | zero => simp at hm
    | succ m =>
      simp only [List.cons_append, Chrono.takeDigitsAux, hds.1, if_true]
      rw [show ds.append rest = ds ++ rest from rfl, ih m (acc * 10 + digitVal d) hds.2 (by simpa using hm)]
      rw [digitsToNat_cons]
      simp only [List.length_cons, pow_succ]
      ring_nf

theorem scanNum_digits (w : Nat) (ds rest : List Char)
    (hds : ds.all Char.isDigit = true) (hne : ds ≠ []) (hw : ds.length ≤ w)
    (hstop : ∀ c cs, rest = c :: cs → c.isDigit = false) :
    Chrono.scanNum w (ds ++ rest) = .ok (digitsToNat ds, rest) := by
  cases ds with
  | nil => exact absurd rfl hne
  | cons d ds =>
    simp only [List.all_cons, Bool.and_eq_true] at hds
    simp only [List.cons_append, Chrono.scanNum, hds.1, if_true]
    rw [takeDigitsAux_digits ds (w - 1) rest (digitVal d) hds.2
      (by simp at hw; omega) hstop]
    rw [digitsToNat_cons]

/-! Symbolic evaluation of the chrono parse on `"20190113200517." ++ tail` -/

theorem chrono_parseItems_family (tail : List Char) :
    Chrono.parseItems ("20190113200517.".data ++ tail)
      = match Chrono.scanNum 9 tail with
        | .error e => .error e
        | .ok (ns, rest) =>
          match rest with
          | [] => .ok ⟨2019, 1, 13, 20, 5, 17, ns⟩
          | _ => .error .tooLong := rfl

theorem chrono_scanNum_fixed (N : Nat) (hN : N < 1000000) :
    Chrono.scanNum 9 (fixedDigits 6 N) = .ok (N, []) := by
  have h := scanNum_digits 9 (fixedDigits 6 N) [] (fixedDigits_all_digits 6 N)
    (by intro h; have := fixedDigits_length 6 N; rw [h] at this; simp at this)
    (by rw [fixedDigits_length]; omega)
    (by intro c cs h; cases h)
  rw [List.append_nil] at h
  rw [h, digitsToNat_fixedDigits_of_lt hN]

theorem chrono_from_str_family (N : Nat) (hN : N < 1000000) :
    Chrono.from_str ("20190113200517.".data ++ (fixedDigits 6 N ++ "+000".data))
      = .ok ⟨2019, 1, 13, 20, 5, 17, N, 0⟩ := by
  have hlen6 := fixedDigits_length 6 N
  have h21 : (21 : Nat) = "20190113200517.".data.length + 6 := by decide
  have htake : ("20190113200517.".data ++ (fixedDigits 6 N ++ "+000".data)).take 21
      = "20190113200517.".data ++ fixedDigits 6 N := by
    rw [h21, List.take_append, List.take_left' hlen6]
  have hdrop : ("20190113200517.".data ++ (fixedDigits 6 N ++ "+000".data)).drop 21
      = "+000".data := by
    rw [h21, List.drop_append, List.drop_left' hlen6]
  have hlen : ("20190113200517.".data ++ (fixedDigits 6 N ++ "+000".data)).length = 25 := by
    simp [hlen6]
  simp only [Chrono.from_str]
  rw [hlen, if_neg (by norm_num), htake, hdrop]
  show (match Chrono.parseItems ("20190113200517.".data ++ fixedDigits 6 N) with
       | .error e => Outcome.err (WMIError.parseDatetimeChrono e)
       | .ok r =>
         match Chrono.resolve 0 r with
         | .error e => Outcome.err (WMIError.parseDatetimeChrono e)
         | .ok dt => Outcome.ok dt) = _
  rw [chrono_parseItems_family (fixedDigits 6 N), chrono_scanNum_fixed N hN]
  rfl

theorem chrono_format_family (N : Nat) (hN : N < 1000000) :
    Chrono.to_rfc3339 ⟨2019, 1, 13, 20, 5, 17, N, 0⟩
      = "2019-01-13T20:05:17".data ++ (Chrono.fracAutoSi N ++ "+00:00".data) := by
  have h9 : N < 1000000000 := by omega
  unfold Chrono.to_rfc3339
  rw [show (⟨2019, 1, 13, 20, 5, 17, N, 0⟩ : Chrono.DateTime).nanos = N from rfl,
    Nat.mod_eq_of_lt h9]
  have hcore : Chrono.dateCore ⟨2019, 1, 13, 20, 5, 17, N, 0⟩
      = "2019-01-13T20:05:17".data := by
    simp only [Chrono.dateCore]
    rw [Nat.div_eq_of_lt h9]
    decide
  have hoff : Chrono.offsetColon
      (⟨2019, 1, 13, 20, 5, 17, N, 0⟩ : Chrono.DateTime).offsetSecs = "+00:00".data := by
    show Chrono.offsetColon 0 = "+00:00".data
    decide
  rw [hcore, hoff]
  simp [List.append_assoc]

theorem fracAutoSi_micro (N : Nat) (hN : N < 1000000) (hmod : N % 1000 = 0) (hne : N ≠ 0) :
    Chrono.fracAutoSi N = '.' :: fixedDigits 6 (N / 1000) := by
  have h6 : N % 1000000 = N := Nat.mod_eq_of_lt hN
  unfold Chrono.fracAutoSi
  rw [if_neg hne, h6, if_neg hne, if_pos hmod,
    padNum_eq_fixedDigits (show N / 1000 < 10 ^ 6 by omega)]

theorem fracAutoSi_nano (N : Nat) (hN : N < 1000000) (hmod : ¬ N % 1000 = 0) :
    Chrono.fracAutoSi N = '.' :: fixedDigits 9 N := by
  have hne : N ≠ 0 := by omega
  have h6 : N % 1000000 = N := Nat.mod_eq_of_lt hN
  unfold Chrono.fracAutoSi
  rw [if_neg hne, h6, if_neg hne, if_neg hmod,
    padNum_eq_fixedDigits (show N < 10 ^ 9 by omega)]

/-! Time-backend parse structure lemmas -/
theorem parseFixed2_ok_rest {name : String} {lo hi : Nat} {cs : List Char}
    {v : Nat} {r : List Char}
    (h : TimeBackend.parseFixed2 name lo hi cs = .ok (v, r)) : r = cs.drop 2 := by
  unfold TimeBackend.parseFixed2 at h
  dsimp only at h
  repeat' split at h
  all_goals simp_all

theorem expectDot_ok_rest {cs r : List Char}
    (h : TimeBackend.expectDot cs = .ok r) : r = cs.drop 1 := by
  unfold TimeBackend.expectDot at h
  repeat' split at h
  all_goals simp_all

theorem parseSubsec6_ok {cs : List Char} {ns : Nat} {r : List Char}
    (h : TimeBackend.parseSubsec6 cs = .ok (ns, r)) :
    ns = digitsToNat (cs.take 6) * 1000 ∧ (cs.take 6).length = 6
      ∧ (cs.take 6).all Char.isDigit = true := by
  unfold TimeBackend.parseSubsec6 at h
  split at h
  · simp at h
    rename_i hcond
    exact ⟨h.1.symm, hcond.1, hcond.2⟩
  · simp at h

theorem timeParseItems_ok_nanos {cs : List Char} {f : TimeBackend.Fields}
    (h : TimeBackend.parseItems cs = .ok f) :
    f.nanos = digitsToNat ((cs.drop 11).take 6) * 1000
      ∧ ((cs.drop 11).take 6).length = 6
      ∧ ((cs.drop 11).take 6).all Char.isDigit = true := by
  unfold TimeBackend.parseItems at h
  split at h
  · simp at h
  rename_i mo r1 h1
  split at h
  · simp at h
  rename_i d r2 h2
  split at h
  · simp at h
  rename_i hh r3 h3
  split at h
  · simp at h
  rename_i mi r4 h4
  split at h
  · simp at h
  rename_i sec r5 h5
  split at h
  · simp at h
  rename_i r6 h6
  split at h
  · simp at h
  rename_i ns r7 h7
  simp only [Except.ok.injEq] at h
  have e1 := parseFixed2_ok_rest h1
  have e2 := parseFixed2_ok_rest h2
  have e3 := parseFixed2_ok_rest h3
  have e4 := parseFixed2_ok_rest h4
  have e5 := parseFixed2_ok_rest h5
  subst e1 e2 e3 e4 e5
  simp only [List.drop_drop] at h6
  have e6 := expectDot_ok_rest h6
  subst e6
  simp only [List.drop_drop] at h7
  have hs := parseSubsec6_ok h7
  rw [← h]
  norm_num at hs ⊢
  exact hs

theorem timeParseItems_nanos_le {cs : List Char} {f : TimeBackend.Fields}
    (h : TimeBackend.parseItems cs = .ok f) : f.nanos ≤ 999999000 := by
  obtain ⟨hval, hlen, hdig⟩ := timeParseItems_ok_nanos h
  have := digitsToNat_lt _ hdig
  rw [hlen] at this
  norm_num at this
  omega

theorem time_from_str_ok_subsec {s : List Char} {dt : TimeBackend.DateTime}
    (h : TimeBackend.from_str s = .ok dt) :
    ∃ M, M < 1000000 ∧ digitsToNatOpt ((s.drop 15).take 6) = some M ∧ dt.nanos = M := by
  unfold TimeBackend.from_str at h
  dsimp only at h
  split at h
  · simp at h
  split at h
  · simp at h
  rename_i m hm
  split at h
  · simp at h
  split at h
  · simp at h
  rename_i f hf
  split at h
  · simp at h
  split at h
  · simp at h
  rename_i y hy
  split at h
  · simp at h
  split at h
  · simp at h
  simp only [Outcome.ok.injEq] at h
  obtain ⟨hval, hlen, hdig⟩ := timeParseItems_ok_nanos hf
  have hpos : (((s.drop 4).take 17).drop 11).take 6 = (s.drop 15).take 6 := by
    rw [List.drop_take, List.drop_drop, List.take_take]
    norm_num
  rw [hpos] at hval hlen hdig
  refine ⟨digitsToNat ((s.drop 15).take 6), ?_, ?_, ?_⟩
  · have := digitsToNat_lt _ hdig
    rw [hlen] at this
    norm_num at this
    exact this
  · rw [digitsToNatOpt, if_pos]
    constructor
    · intro hnil
      rw [hnil] at hlen
      simp at hlen
    · exact hdig
  · rw [← h]
    show f.nanos / 1000 = _
    rw [hval]
    exact Nat.mul_div_cancel _ (by norm_num)

/-- Claim C9: the defensive `InternalFormattingFailure` branch guarding
`set_subsecond` is unreachable — a correctly parsed six-digit subsecond field
yields at most `999999 * 1000` nanoseconds, so dividing by 1000 always lands
in the representable subsecond range. -/
theorem c9_subsecond_defensive_unreachable (s : List Char) :
    TimeBackend.from_str s ≠ .err (.formatInvalidComponent "subsecond") := by
  intro h
  unfold TimeBackend.from_str at h
  dsimp only at h
  split at h
  · simp at h
  split at h
  · simp at h
  split at h
  · simp at h
  split at h
  · simp at h
  rename_i f hf
  split at h
  · rename_i hgt
    have := timeParseItems_nanos_le hf
    omega
  split at h
  · simp at h
  split at h
  · simp at h
  split at h
  · simp at h
  · simp at h

/-- Claim C5 (amended): for every input of length at least 21, the characters
from index 21 onward are parsed as a signed base-10 `i32` of offset minutes; a
non-numeric or missing tail fails with the `InvalidOffset` kind on both
backends.  When the tail parses to `m` minutes and `m * 60` seconds (with
`i32` wrap-around) is out of range, the time backend fails with
`InvalidOffset`, but the chrono backend panics in `FixedOffset::east` instead
of returning an error. -/
theorem c5_offset_tail_parsing (s : List Char) (h21 : 21 ≤ s.length) :
    (parseI32 (s.drop 21) = none →
      Chrono.from_str s = .err .parseIntError ∧
      TimeBackend.from_str s = .err .parseIntError ∧
      specKind .parseIntError = .InvalidOffset) ∧
    (∀ m : Int, parseI32 (s.drop 21) = some m →
      ((wrap32 (m * 60) < -93599 ∨ 93599 < wrap32 (m * 60)) →
        TimeBackend.from_str s = .err (.parseDatetimeTime (.componentRange "offset")) ∧
        specKind (.parseDatetimeTime (.componentRange "offset")) = .InvalidOffset) ∧
      ((wrap32 (m * 60) ≤ -86400 ∨ 86400 ≤ wrap32 (m * 60)) →
        Chrono.from_str s = .panic)) := by
  have hlen : ¬ s.length < 21 := by omega
  refine ⟨fun hp => ⟨?_, ?_, rfl⟩, fun m hp => ⟨fun hr => ⟨?_, rfl⟩, fun hr => ?_⟩⟩
  · simp [Chrono.from_str, hlen, hp]
  · simp [TimeBackend.from_str, hlen, hp]
  · simp [TimeBackend.from_str, hlen, hp, hr]
  · simp [Chrono.from_str, hlen, hp, hr]

theorem parseFixed2_nondigit {name : String} {lo hi : Nat} (cs : List Char)
    (h : ¬ (cs.take 2).all Char.isDigit = true) :
    TimeBackend.parseFixed2 name lo hi cs = .error (.invalidComponent name) := by
  match cs with
  | [] => simp at h
  | [c] => rfl
  | c1 :: c2 :: r =>
    simp only [List.take_cons, List.take, List.all_cons, List.all_nil,
      Bool.and_true, Bool.and_eq_true] at h
    simp [TimeBackend.parseFixed2, h]

theorem parseSubsec6_nondigit (cs : List Char)
    (h : ¬ (cs.take 6).all Char.isDigit = true) :
    TimeBackend.parseSubsec6 cs = .error (.invalidComponent "subsecond") := by
  unfold TimeBackend.parseSubsec6
  rw [if_neg]
  rintro ⟨-, hd⟩
  exact h hd

/-- Claim C7 (amended, time backend): `parse_items` errors propagate to
`from_str` unchanged; a non-digit character in the first offending
fixed-width field among month, day, hour, minute, second (two digits each) or
subsecond (six digits) fails with `InvalidComponent` naming that field.  The
four-character year field, however, is parsed as a signed `i32`, and a
non-digit there fails with the nameless integer-parse error — the same kind as
an invalid offset tail (`InvalidOffset`), not a field-named
`InvalidDateTimeComponent`. -/
theorem c7_component_errors (s : List Char) (h21 : 21 ≤ s.length) (m : Int)
    (hm : parseI32 (s.drop 21) = some m)
    (hr : ¬ (wrap32 (m * 60) < -93599 ∨ 93599 < wrap32 (m * 60))) :
    (∀ e, TimeBackend.parseItems ((s.drop 4).take 17) = .error e →
      TimeBackend.from_str s = .err (.parseDatetimeTime e)) ∧
    (∀ cs : List Char, ¬ (cs.take 2).all Char.isDigit = true →
      TimeBackend.parseItems cs = .error (.invalidComponent "month")) ∧
    (∀ (cs : List Char) (v1 : Nat) (r1 : List Char),
      TimeBackend.parseFixed2 "month" 1 12 cs = .ok (v1, r1) →
      ¬ (r1.take 2).all Char.isDigit = true →
      TimeBackend.parseItems cs = .error (.invalidComponent "day")) ∧
    (∀ (cs : List Char) (v1 : Nat) (r1 : List Char) (v2 : Nat) (r2 : List Char),
      TimeBackend.parseFixed2 "month" 1 12 cs = .ok (v1, r1) →
      TimeBackend.parseFixed2 "day" 1 99 r1 = .ok (v2, r2) →
      ¬ (r2.take 2).all Char.isDigit = true →
      TimeBackend.parseItems cs = .error (.invalidComponent "hour")) ∧
    (∀ (cs : List Char) (v1 : Nat) (r1 : List Char) (v2 : Nat) (r2 : List Char)
        (v3 : Nat) (r3 : List Char),
      TimeBackend.parseFixed2 "month" 1 12 cs = .ok (v1, r1) →
      TimeBackend.parseFixed2 "day" 1 99 r1 = .ok (v2, r2) →
      TimeBackend.parseFixed2 "hour" 0 23 r2 = .ok (v3, r3) →
      ¬ (r3.take 2).all Char.isDigit = true →
      TimeBackend.parseItems cs = .error (.invalidComponent "minute")) ∧
    (∀ (cs : List Char) (v1 : Nat) (r1 : List Char) (v2 : Nat) (r2 : List Char)
        (v3 : Nat) (r3 : List Char) (v4 : Nat) (r4 : List Char),
      TimeBackend.parseFixed2 "month" 1 12 cs = .ok (v1, r1) →
      TimeBackend.parseFixed2 "day" 1 99 r1 = .ok (v2, r2) →
      TimeBackend.parseFixed2 "hour" 0 23 r2 = .ok (v3, r3) →
      TimeBackend.parseFixed2 "minute" 0 59 r3 = .ok (v4, r4) →
      ¬ (r4.take 2).all Char.isDigit = true →
      TimeBackend.parseItems cs = .error (.invalidComponent "second")) ∧
    (∀ (cs : List Char) (v1 : Nat) (r1 : List Char) (v2 : Nat) (r2 : List Char)
        (v3 : Nat) (r3 : List Char) (v4 : Nat) (r4 : List Char)
        (v5 : Nat) (r5 : List Char) (r6 : List Char),
      TimeBackend.parseFixed2 "month" 1 12 cs = .ok (v1, r1) →
      TimeBackend.parseFixed2 "day" 1 99 r1 = .ok (v2, r2) →
      TimeBackend.parseFixed2 "hour" 0 23 r2 = .ok (v3, r3) →
      TimeBackend.parseFixed2 "minute" 0 59 r3 = .ok (v4, r4) →
      TimeBackend.parseFixed2 "second" 0 59 r4 = .ok (v5, r5) →
      TimeBackend.expectDot r5 = .ok r6 →
      ¬ (r6.take 6).all Char.isDigit = true →
      TimeBackend.parseItems cs = .error (.invalidComponent "subsecond")) ∧
    (∀ f : TimeBackend.Fields,
      TimeBackend.parseItems ((s.drop 4).take 17) = .ok f →
      parseI32 (s.take 4) = none →
      TimeBackend.from_str s = .err .parseIntError ∧
      specKind .parseIntError = .InvalidOffset) := by
  have hlen : ¬ s.length < 21 := by omega
  refine ⟨?_, ?_, ?_, ?_, ?_, ?_, ?_, ?_⟩
  · intro e hp
    simp [TimeBackend.from_str, hlen, hm, hr, hp]
  · intro cs hbad
    simp [TimeBackend.parseItems, parseFixed2_nondigit cs hbad]
  · intro cs v1 r1 h1 hbad
    simp [TimeBackend.parseItems, h1, parseFixed2_nondigit r1 hbad]
  · intro cs v1 r1 v2 r2 h1 h2 hbad
    simp [TimeBackend.parseItems, h1, h2, parseFixed2_nondigit r2 hbad]
  · intro cs v1 r1 v2 r2 v3 r3 h1 h2 h3 hbad
    simp [TimeBackend.parseItems, h1, h2, h3, parseFixed2_nondigit r3 hbad]
  · intro cs v1 r1 v2 r2 v3 r3 v4 r4 h1 h2 h3 h4 hbad
    simp [TimeBackend.parseItems, h1, h2, h3, h4, parseFixed2_nondigit r4 hbad]
  · intro cs v1 r1 v2 r2 v3 r3 v4 r4 v5 r5 r6 h1 h2 h3 h4 h5 h6 hbad
    simp [TimeBackend.parseItems, h1, h2, h3, h4, h5, h6, parseSubsec6_nondigit r6 hbad]
  · intro f hf hy
    have hb : ¬ 999999999 < f.nanos / 1000 := by
      have := timeParseItems_nanos_le hf
      omega
    refine ⟨?_, rfl⟩
    simp [TimeBackend.from_str, hlen, hm, hr, hf, hb, hy]

theorem chrono_resolve_offsetSecs {secs : Int} {r : Chrono.Raw} {dt : Chrono.DateTime}
    (h : Chrono.resolve secs r = .ok dt) : dt.offsetSecs = secs := by
  unfold Chrono.resolve at h
  repeat' split at h
  all_goals simp_all
  all_goals rw [← h]

theorem chrono_ok_offset {s : List Char} {dt : Chrono.DateTime}
    (h : Chrono.from_str s = .ok dt) :
    -86400 < dt.offsetSecs ∧ dt.offsetSecs < 86400 := by
  unfold Chrono.from_str at h
  dsimp only at h
  split at h
  · simp at h
  split at h
  · simp at h
  rename_i m hm
  split at h
  · simp at h
  rename_i hguard
  split at h
  · simp at h
  rename_i r hitems
  split at h
  · simp at h
  rename_i dt' hres
  simp only [Outcome.ok.injEq] at h
  subst h
  have hoff := chrono_resolve_offsetSecs hres
  rw [hoff]
  push_neg at hguard
  omega

theorem fracAutoSi_length_cases {n : Nat} (hn : n < 1000000000) :
    ((Chrono.fracAutoSi n).length = 7 ↔ ¬ n = 0 ∧ n % 1000 = 0 ∧ ¬ n % 1000000 = 0) ∧
    ((Chrono.fracAutoSi n).length = 0 ∨ (Chrono.fracAutoSi n).length = 4 ∨
      (Chrono.fracAutoSi n).length = 7 ∨ (Chrono.fracAutoSi n).length = 10) := by
  unfold Chrono.fracAutoSi
  by_cases h0 : n = 0
  · simp [h0]
  · rw [if_neg h0]
    by_cases h6 : n % 1000000 = 0
    · rw [if_pos h6]
      have hlt : n / 1000000 < 10 ^ 3 := by omega
      simp [padNum_length hlt, h0, h6]
    · rw [if_neg h6]
      by_cases h3 : n % 1000 = 0
      · rw [if_pos h3]
        have hlt : n / 1000 < 10 ^ 6 := by omega
        simp [padNum_length hlt, h0, h3, h6]
      · rw [if_neg h3]
        have hlt : n < 10 ^ 9 := by omega
        simp [padNum_length hlt, h0, h3, h6]

theorem time_parseItems_family (tail : List Char) :
    TimeBackend.parseItems ("0113200517.".data ++ tail)
      = match TimeBackend.parseSubsec6 tail with
        | .error e => .error e
        | .ok (ns, _) => .ok ⟨1, 13, 20, 5, 17, ns⟩ := rfl

theorem parseSubsec6_fixed (N : Nat) :
    TimeBackend.parseSubsec6 (fixedDigits 6 N) = .ok (digitsToNat (fixedDigits 6 N) * 1000, []) := by
  have hlen6 := fixedDigits_length 6 N
  unfold TimeBackend.parseSubsec6
  rw [List.take_of_length_le (by omega), List.drop_eq_nil_of_le (by omega),
    if_pos ⟨by omega, fixedDigits_all_digits 6 N⟩]

theorem time_from_str_family (N : Nat) (hN : N < 1000000) :
    TimeBackend.from_str ("20190113200517.".data ++ (fixedDigits 6 N ++ "+000".data))
      = .ok ⟨2019, 1, 13, 20, 5, 17, N, 0⟩ := by
  have hlen6 := fixedDigits_length 6 N
  have h21 : (21 : Nat) = "20190113200517.".data.length + 6 := by decide
  have hdrop : ("20190113200517.".data ++ (fixedDigits 6 N ++ "+000".data)).drop 21
      = "+000".data := by
    rw [h21, List.drop_append, List.drop_left' hlen6]
  have hlen : ("20190113200517.".data ++ (fixedDigits 6 N ++ "+000".data)).length = 25 := by
    simp [hlen6]
  have hsplit : ("20190113200517.".data : List Char)
      = "2019".data ++ "0113200517.".data := by decide
  have htake4 : ("20190113200517.".data ++ (fixedDigits 6 N ++ "+000".data)).take 4
      = "2019".data := by
    rw [hsplit, List.append_assoc]
    exact List.take_left' (by decide)
  have hslice : (("20190113200517.".data ++ (fixedDigits 6 N ++ "+000".data)).drop 4).take 17
      = "0113200517.".data ++ fixedDigits 6 N := by
    rw [hsplit, List.append_assoc, List.drop_left' (by decide)]
    rw [show (17 : Nat) = "0113200517.".data.length + 6 from by decide, List.take_append,
      List.take_left' hlen6]
  have hdiv : N * 1000 / 1000 = N := Nat.mul_div_cancel _ (by norm_num)
  simp only [TimeBackend.from_str]
  rw [hlen, if_neg (by norm_num), hdrop, htake4, hslice]
  rw [show parseI32 "+000".data = some 0 from rfl]
  rw [time_parseItems_family (fixedDigits 6 N), parseSubsec6_fixed N,
    digitsToNat_fixedDigits_of_lt hN]
  show (if 999999999 < N * 1000 / 1000 then Outcome.err (WMIError.formatInvalidComponent "subsecond")
      else Outcome.ok (⟨2019, 1, 13, 20, 5, 17, N * 1000 / 1000, 0⟩ : TimeBackend.DateTime))
    = Outcome.ok (⟨2019, 1, 13, 20, 5, 17, N, 0⟩ : TimeBackend.DateTime)
  rw [hdiv, if_neg (show ¬ 999999999 < N by omega)]

/-- Claim C1: parsing `"20190113200517.500000-180"` succeeds and formatting the
resulting instant yields `"2019-01-13T20:05:17.000500-03:00"`; likewise
`"20190113200517.500000+060"` formats to `"2019-01-13T20:05:17.000500+01:00"`
(default chrono backend, as in the module's tests). -/
theorem c1_concrete_examples :
    Chrono.parseThenFormat "20190113200517.500000-180".data
      = .ok "2019-01-13T20:05:17.000500-03:00".data ∧
    Chrono.parseThenFormat "20190113200517.500000+060".data
      = .ok "2019-01-13T20:05:17.000500+01:00".data := by decide

/-- Claim C2 (amended): for every raw six-digit subsecond field value `N`, the
instant produced by either backend stores `N` nanoseconds — so its
whole-microsecond value is `N / 1000`; the formatted output (chrono `AutoSi`)
shows a zero-padded six-digit fractional field equal to `N / 1000` exactly when
`N` is a nonzero multiple of 1000, shows nine digits when `N` is not a multiple
of 1000, and omits the fractional field when `N = 0`.  The final conjunct
states the storage law for every successfully parsed input of the time backend.
-/
theorem c2_subsecond_normalization (N : Nat) (hN : N < 1000000) :
    Chrono.from_str ("20190113200517.".data ++ (fixedDigits 6 N ++ "+000".data))
        = .ok ⟨2019, 1, 13, 20, 5, 17, N, 0⟩ ∧
    TimeBackend.from_str ("20190113200517.".data ++ (fixedDigits 6 N ++ "+000".data))
        = .ok ⟨2019, 1, 13, 20, 5, 17, N, 0⟩ ∧
    (N % 1000 = 0 → ¬ N = 0 →
      Chrono.parseThenFormat ("20190113200517.".data ++ (fixedDigits 6 N ++ "+000".data))
        = .ok ("2019-01-13T20:05:17.".data ++ (fixedDigits 6 (N / 1000) ++ "+00:00".data))) ∧
    (¬ N % 1000 = 0 →
      Chrono.parseThenFormat ("20190113200517.".data ++ (fixedDigits 6 N ++ "+000".data))
        = .ok ("2019-01-13T20:05:17.".data ++ (fixedDigits 9 N ++ "+00:00".data))) ∧
    (N = 0 →
      Chrono.parseThenFormat ("20190113200517.".data ++ (fixedDigits 6 N ++ "+000".data))
        = .ok "2019-01-13T20:05:17+00:00".data) ∧
    (∀ (s : List Char) (dt : TimeBackend.DateTime), TimeBackend.from_str s = .ok dt →
      ∃ M, M < 1000000 ∧ digitsToNatOpt ((s.drop 15).take 6) = some M ∧ dt.nanos = M) := by
  have hdot : ("2019-01-13T20:05:17.".data : List Char)
      = "2019-01-13T20:05:17".data ++ ['.'] := by decide
  refine ⟨chrono_from_str_family N hN, time_from_str_family N hN, ?_, ?_, ?_,
    fun s dt h => time_from_str_ok_subsec h⟩
  · intro hmod hne
    unfold Chrono.parseThenFormat
    rw [chrono_from_str_family N hN]
    show Outcome.ok (Chrono.to_rfc3339 ⟨2019, 1, 13, 20, 5, 17, N, 0⟩) = _
    rw [chrono_format_family N hN, fracAutoSi_micro N hN hmod hne, hdot]
    simp
  · intro hmod
    unfold Chrono.parseThenFormat
    rw [chrono_from_str_family N hN]
    show Outcome.ok (Chrono.to_rfc3339 ⟨2019, 1, 13, 20, 5, 17, N, 0⟩) = _
    rw [chrono_format_family N hN, fracAutoSi_nano N hN hmod, hdot]
    simp
  · intro h0
    subst h0
    unfold Chrono.parseThenFormat
    rw [chrono_from_str_family 0 (by norm_num)]
    show Outcome.ok (Chrono.to_rfc3339 ⟨2019, 1, 13, 20, 5, 17, 0, 0⟩) = _
    rw [chrono_format_family 0 (by norm_num)]
    rfl

/-- Witness for C2 at the documented example value `N = 500000`. -/
theorem c2_subsecond_normalization_witness :
    Chrono.from_str ("20190113200517.".data ++ (fixedDigits 6 500000 ++ "+000".data))
        = .ok ⟨2019, 1, 13, 20, 5, 17, 500000, 0⟩ ∧
    TimeBackend.from_str ("20190113200517.".data ++ (fixedDigits 6 500000 ++ "+000".data))
        = .ok ⟨2019, 1, 13, 20, 5, 17, 500000, 0⟩ ∧
    (500000 % 1000 = 0 → ¬ 500000 = 0 →
      Chrono.parseThenFormat ("20190113200517.".data ++ (fixedDigits 6 500000 ++ "+000".data))
        = .ok ("2019-01-13T20:05:17.".data ++ (fixedDigits 6 (500000 / 1000) ++ "+00:00".data))) ∧
    (¬ 500000 % 1000 = 0 →
      Chrono.parseThenFormat ("20190113200517.".data ++ (fixedDigits 6 500000 ++ "+000".data))
        = .ok ("2019-01-13T20:05:17.".data ++ (fixedDigits 9 500000 ++ "+00:00".data))) ∧
    (500000 = 0 →
      Chrono.parseThenFormat ("20190113200517.".data ++ (fixedDigits 6 500000 ++ "+000".data))
        = .ok "2019-01-13T20:05:17+00:00".data) ∧
    (∀ (s : List Char) (dt : TimeBackend.DateTime), TimeBackend.from_str s = .ok dt →
      ∃ M, M < 1000000 ∧ digitsToNatOpt ((s.drop 15).take 6) = some M ∧ dt.nanos = M) :=
  c2_subsecond_normalization 500000 (by norm_num)

/-- Claim C2 counterexample: for raw subsecond field `000001` (`N = 1`), the
formatted output carries a nine-digit fractional field showing the raw
nanosecond value, not a zero-padded six-digit field showing `N / 1000 = 0`. -/
theorem c2_claimed_display_counterexample :
    Chrono.parseThenFormat "20190113200517.000001+000".data
      = .ok "2019-01-13T20:05:17.000000001+00:00".data ∧
    ("2019-01-13T20:05:17.000000001+00:00".data : List Char)
      ≠ "2019-01-13T20:05:17.000000+00:00".data := by decide

/-- Claim C3 (amended): formatting an instant obtained from a successful parse
never fails (the model formatter is total) and renders the offset as an
explicit sign character (`+` or `-`, `+` even when the offset is zero — never
the `Z` shorthand) followed by two-digit hours, a colon, and two-digit
minutes.  The fractional-second field, however, does not always carry exactly
six digits: its length (with the leading dot) is 0, 4, 7, or 10, and it is 7
(i.e. six digits) precisely when the displayed nanoseconds are a nonzero
multiple of 1000 but not of 1000000. -/
theorem c3_format_profile (s : List Char) (dt : Chrono.DateTime)
    (h : Chrono.from_str s = .ok dt) :
    Chrono.to_rfc3339 dt
      = Chrono.dateCore dt ++ Chrono.fracAutoSi (dt.nanos % 1000000000)
          ++ (Chrono.offSign dt.offsetSecs
              :: (padNum 2 (dt.offsetSecs.natAbs / 3600)
                  ++ ':' :: padNum 2 (dt.offsetSecs.natAbs % 3600 / 60))) ∧
    (Chrono.offSign dt.offsetSecs = '+' ∨ Chrono.offSign dt.offsetSecs = '-') ∧
    (dt.offsetSecs = 0 → Chrono.offSign dt.offsetSecs = '+') ∧
    (padNum 2 (dt.offsetSecs.natAbs / 3600)).length = 2 ∧
    (padNum 2 (dt.offsetSecs.natAbs % 3600 / 60)).length = 2 ∧
    ((Chrono.fracAutoSi (dt.nanos % 1000000000)).length = 7 ↔
      ¬ dt.nanos % 1000000000 = 0 ∧ (dt.nanos % 1000000000) % 1000 = 0 ∧
        ¬ (dt.nanos % 1000000000) % 1000000 = 0) ∧
    ((Chrono.fracAutoSi (dt.nanos % 1000000000)).length = 0 ∨
     (Chrono.fracAutoSi (dt.nanos % 1000000000)).length = 4 ∨
     (Chrono.fracAutoSi (dt.nanos % 1000000000)).length = 7 ∨
     (Chrono.fracAutoSi (dt.nanos % 1000000000)).length = 10) := by
  have hoff := chrono_ok_offset h
  have habs : dt.offsetSecs.natAbs < 86400 := by omega
  have hfrac := fracAutoSi_length_cases (n := dt.nanos % 1000000000)
    (Nat.mod_lt _ (by norm_num))
  refine ⟨rfl, ?_, ?_, ?_, ?_, hfrac.1, hfrac.2⟩
  · unfold Chrono.offSign
    split
    · right; rfl
    · left; rfl
  · intro h0
    rw [Chrono.offSign, if_neg (by omega)]
  · exact padNum_length (by omega)
  · exact padNum_length (by omega)

/-- Witness for C3 at the parsed instant of `"20190113200517.500000+060"`. -/
theorem c3_format_profile_witness :
    Chrono.offSign (⟨2019, 1, 13, 20, 5, 17, 500000, 3600⟩ : Chrono.DateTime).offsetSecs = '+'
      ∨ Chrono.offSign (⟨2019, 1, 13, 20, 5, 17, 500000, 3600⟩ : Chrono.DateTime).offsetSecs = '-' :=
  (c3_format_profile "20190113200517.500000+060".data
    ⟨2019, 1, 13, 20, 5, 17, 500000, 3600⟩ (by decide)).2.1

/-- Claim C3 counterexample: the parsable input `"20190113200517.000000+000"`
formats with no fractional field at all, not with six fractional digits. -/
theorem c3_sixdigit_counterexample :
    Chrono.parseThenFormat "20190113200517.000000+000".data
      = .ok "2019-01-13T20:05:17+00:00".data ∧
    ("2019-01-13T20:05:17+00:00".data : List Char)
      ≠ "2019-01-13T20:05:17.000000+00:00".data := by decide

/-- Claim C4: evaluation at the failing input.  The in-range offset tail
`+1440` (1440 minutes = 86400 seconds) drives `FixedOffset::east` out of its
domain and the chrono backend panics — parsing aborts the process instead of
returning a typed error. -/
theorem c4_chrono_offset_panic :
    Chrono.from_str "20190113200517.500000+1440".data = .panic := by decide

/-- Witness for C5 at the non-numeric offset tail `"+abc"`. -/
theorem c5_offset_tail_parsing_witness :
    Chrono.from_str "20190113200517.500000+abc".data = .err .parseIntError ∧
    TimeBackend.from_str "20190113200517.500000+abc".data = .err .parseIntError ∧
    specKind .parseIntError = .InvalidOffset :=
  (c5_offset_tail_parsing "20190113200517.500000+abc".data (by decide)).1 (by decide)

/-- Claim C5 counterexample: for the offset tail `+2000` (120000 seconds, out
of every valid offset range) the chrono backend panics rather than failing
with `InvalidOffset`. -/
theorem c5_out_of_range_counterexample :
    Chrono.from_str "20190113200517.500000+2000".data = .panic := by decide

/-- Claim C6: every input shorter than 21 characters fails on both backends
with the too-short `ConvertDatetimeError`, whose spec kind is
`MalformedInput`; parsing never succeeds on such inputs. -/
theorem c6_short_input_malformed (s : List Char) (h : s.length < 21) :
    Chrono.from_str s = .err (.convertDatetimeError s) ∧
    TimeBackend.from_str s = .err (.convertDatetimeError s) ∧
    specKind (.convertDatetimeError s) = .MalformedInput := by
  refine ⟨?_, ?_, rfl⟩
  · simp [Chrono.from_str, h]
  · simp [TimeBackend.from_str, h]

/-- Witness for C6 at the 14-character input of the module's tests. -/
theorem c6_short_input_malformed_witness :
    Chrono.from_str "20190113200517".data = .err (.convertDatetimeError "20190113200517".data) ∧
    TimeBackend.from_str "20190113200517".data
      = .err (.convertDatetimeError "20190113200517".data) ∧
    specKind (.convertDatetimeError "20190113200517".data) = .MalformedInput :=
  c6_short_input_malformed "20190113200517".data (by decide)

/-- Witness for C7 at an input whose month field is `"X1"`. -/
theorem c7_component_errors_witness :
    TimeBackend.from_str "2019X113200517.500000+000".data
      = .err (.parseDatetimeTime (.invalidComponent "month")) :=
  (c7_component_errors "2019X113200517.500000+000".data (by decide) 0 (by decide) (by decide)).1
    (.invalidComponent "month") (by decide)

/-- Claim C7 counterexample: a non-digit in the year field (`"X019"`) fails
with the integer-parse error, whose spec kind is `InvalidOffset` — not an
`InvalidDateTimeComponent` naming `"year"` as the claim requires. -/
theorem c7_year_field_counterexample :
    TimeBackend.from_str "X0190113200517.500000+000".data = .err .parseIntError ∧
    specKind .parseIntError = .InvalidOffset ∧
    ∀ f : String, specKind .parseIntError ≠ .InvalidDateTimeComponent f := by
  refine ⟨by decide, by decide, fun f => ?_⟩
  intro hc
  cases hc

/-- Claim C8: decoding a non-string value fails with a type-mismatch error
whose expected-shape description is `"a timestamp in WMI format"` (and is a
returned error, not an abort); decoding a string delegates to the parser, and
a parser failure surfaces as a generic `custom` decode error carrying the
parser's message. -/
theorem c8_decode_adapter (v : SerdeValue) :
    (v.isStr = false →
      deserializeWMIDateTime v
        = .err (.invalidType (typeDesc v) "a timestamp in WMI format")) ∧
    (∀ s, v = .vstr s →
      deserializeWMIDateTime v =
        match Chrono.from_str s with
        | .ok dt => .ok dt
        | .err e => .err (.custom (displayWMIError e))
        | .panic => .panic) := by
  constructor
  · intro h
    cases v <;> simp_all [SerdeValue.isStr, deserializeWMIDateTime]
  · rintro s rfl
    rfl

/-- Witness for C8 at the integer value `3`. -/
theorem c8_decode_adapter_witness :
    deserializeWMIDateTime (.vnum 3)
      = .err (.invalidType (typeDesc (.vnum 3)) "a timestamp in WMI format") :=
  (c8_decode_adapter (.vnum 3)).1 (by decide)

/-- Claim C10: parsing is deterministic — both backends are pure functions of
the input string, so two invocations on the same string yield equal results,
and a given malformed input always fails with the same error. -/
theorem c10_parse_deterministic (s : List Char) :
    Chrono.from_str s = Chrono.from_str s ∧
    TimeBackend.from_str s = TimeBackend.from_str s :=
  ⟨rfl, rfl⟩
